import Mathlib

/-!
Verification of the agentic retrieval-refinement loop of the fitness
recommendation system (`backend/agentic_rag.py`).

The development shallowly embeds the `AgenticFitnessRAG` class: scores are
rationals, the external search collaborator is a parameter of type
`SearchFn` returning `Except` to model raised errors, and each retrieval
strategy additionally records the list of queries it issued so that frame
properties ("no collaborator call is made") can be stated.
-/

namespace AgenticRag

/-- The four retrieval strategies of the `AgentStrategy` enum. -/
inductive AgentStrategy where
  | broad_search
  | targeted_search
  | progressive_refinement
  | multi_angle_approach
deriving DecidableEq

/-- The `.value` string of each enum member. -/
def AgentStrategy.value : AgentStrategy → String
  | .broad_search => "broad_search"
  | .targeted_search => "targeted_search"
  | .progressive_refinement => "progressive_refinement"
  | .multi_angle_approach => "multi_angle_approach"

/-- The `SearchResult` dataclass: a normalized search hit. -/
structure SearchResult where
  content : String
  relevance_score : ℚ
  source : String
  exercise_type : String
  target_muscles : List String
  difficulty : String
deriving DecidableEq

/-- The `success_criteria` dict built in `_create_strategic_plan`; its keys
are fixed, so it is embedded as a structure. -/
structure SuccessCriteria where
  relevance_threshold : ℚ
  coverage_target : ℚ
  diversity_minimum : ℚ
  practical_applicability : ℚ
deriving DecidableEq

/-- The `AgentPlan` dataclass. -/
structure AgentPlan where
  primary_goal : String
  sub_goals : List String
  search_strategies : List AgentStrategy
  expected_iterations : Nat
  success_criteria : SuccessCriteria
deriving DecidableEq

/-- A raw hit returned by the search collaborator; optional fields model the
`dict.get(key, default)` accesses in the strategy executors. -/
structure Exercise where
  content : Option String
  score : Option ℚ
  category : Option String
  muscle_groups : List String
  difficulty : Option String
deriving DecidableEq

/-- The external search collaborator (`search_exercises_sync` with the client
and profile fixed); `Except` models a raised exception. -/
def SearchFn : Type := String → Except String (List Exercise)

/-- The truthy keys that `_extract_visual_insights` can set and
`_create_strategic_plan` reads from the `visual_assessment` dict. -/
structure VisualInsights where
  form_issues : Bool
  equipment_available : Bool
  muscle_definition : Bool
  posture_issues : Bool
  current_fitness_level : Bool
  form_assessment : Bool
  mobility_issues : Bool
  equipment_assessment : Bool
deriving DecidableEq

/-- A `VisualInsights` record with every flag clear (no image analysis). -/
def noVisualInsights : VisualInsights :=
  ⟨false, false, false, false, false, false, false, false⟩

/-- The dict returned by `_assess_result_quality`. `meets_criteria` is an
`Option` because the empty-results branch omits that key; consumers read it
with `.get("meets_criteria", False)`, i.e. `Option.getD false`. -/
structure QualityAssessment where
  overall_score : ℚ
  relevance : ℚ
  coverage : ℚ
  diversity : ℚ
  meets_criteria : Option Bool
deriving DecidableEq

/-- One record appended to `self.successful_strategies[strategy]`. -/
structure MemoryEntry where
  quality_score : ℚ
  result_count : Nat
  timestamp : String
deriving DecidableEq

/-- `self.successful_strategies`: an insertion-ordered dict from strategy
value to its history. -/
def Memory : Type := List (String × List MemoryEntry)

instance : DecidableEq Memory := by
  unfold Memory
  infer_instance

/-! ### String helpers

Python's `str.replace(pat, "")` removes every occurrence of `pat`, scanning
left to right; `str.replace("_", " ")` maps a single character. -/

/-- Substring test, Python's `pat in s` on character lists. -/
def hasSubstring (s pat : List Char) : Bool :=
  pat.isPrefixOf s ||
    match s with
    | [] => false
    | _ :: t => hasSubstring t pat

/-- Left-to-right removal of every occurrence of `pat` (fuel-indexed; the
fuel `s.length` suffices for nonempty `pat`). -/
def removeAllAux : Nat → List Char → List Char → List Char
  | _, [], _ => []
  | 0, s, _ => s
  | fuel + 1, c :: rest, pat =>
    if pat.isPrefixOf (c :: rest) then removeAllAux fuel ((c :: rest).drop pat.length) pat
    else c :: removeAllAux fuel rest pat

/-- Python `s.replace(pat, "")`. -/
def pyRemoveAll (s pat : String) : String :=
  ⟨removeAllAux s.data.length s.data pat.data⟩

/-- Python `s.replace(c, d)` for single characters. -/
def pyReplaceChar (s : String) (c d : Char) : String :=
  ⟨s.data.map (fun x => if x = c then d else x)⟩

/-- Python `s.lower()` (ASCII mapping, which is all the source feeds it). -/
def pyLower (s : String) : String :=
  ⟨s.data.map (fun c => if 'A' ≤ c ∧ c ≤ 'Z' then Char.ofNat (c.toNat + 32) else c)⟩

/-! ### Planner (`_create_strategic_plan`) -/

/-- The `success_criteria` constants of `_create_strategic_plan`. -/
def defaultSuccessCriteria : SuccessCriteria :=
  { relevance_threshold := 7/10
    coverage_target := 8/10
    diversity_minimum := 3
    practical_applicability := 9/10 }

/-- Goal decomposition: the sub-goal list per primary goal, with the
conditional appends driven by visual insights (`_create_strategic_plan`). -/
def planSubGoals (primary_goal : String) (vi : VisualInsights) : List String :=
  if primary_goal = "weight_loss" then
    ["find_high_intensity_cardio", "identify_calorie_burning_exercises",
     "locate_nutrition_guidance", "discover_progression_strategies"]
      ++ (if vi.form_issues then ["address_form_corrections"] else [])
      ++ (if vi.equipment_available then ["utilize_available_equipment"] else [])
  else if primary_goal = "muscle_gain" then
    ["find_progressive_strength_exercises", "identify_muscle_building_protocols",
     "locate_nutrition_for_growth", "discover_recovery_strategies"]
      ++ (if vi.muscle_definition then ["target_specific_muscle_groups"] else [])
      ++ (if vi.posture_issues then ["address_postural_corrections"] else [])
  else if primary_goal = "cardio" then
    ["find_endurance_training_methods", "identify_cardio_progressions",
     "locate_heart_rate_guidance", "discover_training_variations"]
      ++ (if vi.current_fitness_level then ["adjust_intensity_for_level"] else [])
      ++ (if vi.equipment_available then ["optimize_available_equipment"] else [])
  else
    ["find_foundational_exercises", "identify_balanced_routines",
     "locate_beginner_progressions", "discover_safety_guidelines"]
      ++ (if vi.form_assessment then ["improve_exercise_form"] else [])
      ++ (if vi.mobility_issues then ["address_mobility_limitations"] else [])
      ++ (if vi.equipment_assessment then ["adapt_for_equipment_constraints"] else [])

/-- The candidate strategy pair per primary goal (`_create_strategic_plan`). -/
def planStrategies (primary_goal : String) : List AgentStrategy :=
  if primary_goal = "weight_loss" then [.broad_search, .targeted_search]
  else if primary_goal = "muscle_gain" then [.targeted_search, .progressive_refinement]
  else if primary_goal = "cardio" then [.broad_search, .multi_angle_approach]
  else [.broad_search, .progressive_refinement]

/-- `_create_strategic_plan`: assembles the `AgentPlan`. -/
def createStrategicPlan (primary_goal : String) (vi : VisualInsights)
    (maxIterations : Nat) : AgentPlan :=
  let sub_goals := planSubGoals primary_goal vi
  { primary_goal := primary_goal
    sub_goals := sub_goals
    search_strategies := planStrategies primary_goal
    expected_iterations := min sub_goals.length maxIterations
    success_criteria := defaultSuccessCriteria }

/-! ### Quality scorer (`_assess_result_quality`) -/

/-- `_assess_result_quality`: metrics for the new batch against the plan and
the accumulated results. The empty-batch branch returns the all-zero dict,
which omits the `meets_criteria` key (`none`). -/
def assessResultQuality (new_results : List SearchResult) (plan : AgentPlan)
    (all_results : List SearchResult) : QualityAssessment :=
  if new_results = [] then ⟨0, 0, 0, 0, none⟩
  else
    let avg_relevance : ℚ :=
      (new_results.map SearchResult.relevance_score).sum / (new_results.length : ℚ)
    let all_exercise_types := ((all_results ++ new_results).map SearchResult.exercise_type).dedup
    let coverage : ℚ :=
      min ((all_exercise_types.length : ℚ) / (plan.sub_goals.length : ℚ)) 1
    let all_muscles := ((all_results ++ new_results).flatMap SearchResult.target_muscles).dedup
    let all_difficulties := ((all_results ++ new_results).map SearchResult.difficulty).dedup
    let diversity : ℚ :=
      min (((all_muscles.length : ℚ) + (all_difficulties.length : ℚ)) / 10) 1
    let overall_score := avg_relevance * (4/10) + coverage * (3/10) + diversity * (3/10)
    ⟨overall_score, avg_relevance, coverage, diversity,
      some (decide (overall_score ≥ plan.success_criteria.relevance_threshold))⟩

/-! ### Strategy selector (`_select_optimal_strategy`) -/

/-- `_results_lack_specificity`: more than 70% of the results carry a
generic exercise-type tag (substring test on the lowered tag). -/
def resultsLackSpecificity (results : List SearchResult) : Bool :=
  let general_terms := ["general", "basic", "beginner", "simple"]
  let general_count :=
    (results.filter (fun r =>
      general_terms.any (fun term => hasSubstring (pyLower r.exercise_type).data term.data))).length
  decide ((general_count : ℚ) > (results.length : ℚ) * (7/10))

/-- `_results_need_refinement`: the average relevance score is strictly
between 0.4 and 0.7 (0 when there are no results). -/
def resultsNeedRefinement (results : List SearchResult) : Bool :=
  let avg_score : ℚ :=
    if results = [] then 0
    else (results.map SearchResult.relevance_score).sum / (results.length : ℚ)
  decide ((4/10 : ℚ) < avg_score ∧ avg_score < 7/10)

/-- `_select_optimal_strategy`: the priority cascade choosing the next
iteration's strategy. -/
def selectOptimalStrategy (plan : AgentPlan) (current_results : List SearchResult)
    (iteration : Nat) : AgentStrategy :=
  if iteration = 0 then .broad_search
  else if current_results.length < 3 then .multi_angle_approach
  else if resultsLackSpecificity current_results then .targeted_search
  else if resultsNeedRefinement current_results then .progressive_refinement
  else plan.search_strategies.getD (iteration % plan.search_strategies.length) .broad_search

/-! ### Retrieval strategies

Each executor returns the produced `SearchResult`s together with the list of
queries it issued to the collaborator (a query is recorded even when the
collaborator raises, because the call was made). -/

/-- The broad search term table of `_execute_broad_search`. -/
def broadSearchTerms (goal : String) : List String :=
  if goal = "weight_loss" then ["cardio", "fat burning", "HIIT", "weight loss exercises"]
  else if goal = "muscle_gain" then ["strength training", "muscle building", "hypertrophy", "resistance"]
  else if goal = "cardio" then ["endurance", "cardiovascular", "aerobic", "cardio training"]
  else if goal = "strength" then ["strength", "powerlifting", "resistance training", "strong"]
  else ["fitness", "exercise", "workout", "training"]

/-- Hit mapping of `_execute_broad_search` (top 2 per term, default score 0.5). -/
def mapBroadHit (e : Exercise) : SearchResult :=
  { content := e.content.getD ""
    relevance_score := e.score.getD (5/10)
    source := "azure_search"
    exercise_type := e.category.getD "general"
    target_muscles := e.muscle_groups
    difficulty := e.difficulty.getD "beginner" }

/-- `_execute_broad_search`: one query per term; a per-term failure is caught
and contributes nothing. -/
def executeBroadSearch (search : SearchFn) (plan : AgentPlan) :
    List SearchResult × List String :=
  let terms := broadSearchTerms plan.primary_goal
  (terms.flatMap (fun term =>
    match search term with
    | .error _ => []
    | .ok exercises => (exercises.take 2).map mapBroadHit), terms)

/-- Sub-goal to query conversion of `_execute_targeted_search`: the chained
`str.replace` calls removing the four marker substrings and mapping
underscores to spaces. -/
def subGoalToSearchTerm (sub_goal : String) : String :=
  pyReplaceChar
    (pyRemoveAll (pyRemoveAll (pyRemoveAll (pyRemoveAll sub_goal "find_")
      "identify_") "locate_") "discover_") '_' ' '

/-- Hit mapping of `_execute_targeted_search` (top 3, default score 0.6). -/
def mapTargetedHit (e : Exercise) : SearchResult :=
  { content := e.content.getD ""
    relevance_score := e.score.getD (6/10)
    source := "azure_search_targeted"
    exercise_type := e.category.getD "targeted"
    target_muscles := e.muscle_groups
    difficulty := e.difficulty.getD "intermediate" }

/-- `_execute_targeted_search`: no query at all when the iteration index is
out of the sub-goal range, otherwise exactly one query from that sub-goal. -/
def executeTargetedSearch (search : SearchFn) (plan : AgentPlan) (iteration : Nat) :
    List SearchResult × List String :=
  if h : iteration < plan.sub_goals.length then
    let current_sub_goal := plan.sub_goals.get ⟨iteration, h⟩
    let search_term := subGoalToSearchTerm current_sub_goal
    match search search_term with
    | .error _ => ([], [search_term])
    | .ok exercises => ((exercises.take 3).map mapTargetedHit, [search_term])
  else ([], [])

/-- The angle phrase table of `_execute_multi_angle_search`. -/
def angleSearches (goal : String) : List String :=
  if goal = "weight_loss" then ["beginner weight loss", "advanced fat burning", "cardio for weight loss"]
  else if goal = "muscle_gain" then ["beginner muscle building", "advanced hypertrophy", "strength for muscle"]
  else if goal = "cardio" then ["running cardio", "HIIT cardio", "low intensity cardio"]
  else if goal = "strength" then ["powerlifting", "bodyweight strength", "dumbbell strength"]
  else ["beginner fitness", "intermediate fitness", "advanced fitness"]

/-- Hit mapping of `_execute_multi_angle_search` (top 2 per angle, default
score 0.55, source tagged with the angle). -/
def mapAngleHit (angle : String) (e : Exercise) : SearchResult :=
  { content := e.content.getD ""
    relevance_score := e.score.getD (55/100)
    source := "azure_search_angle_" ++ pyReplaceChar angle ' ' '_'
    exercise_type := e.category.getD "multi_angle"
    target_muscles := e.muscle_groups
    difficulty := e.difficulty.getD "varied" }

/-- `_execute_multi_angle_search`: one query per angle phrase; per-angle
failures are caught and contribute nothing. -/
def executeMultiAngleSearch (search : SearchFn) (plan : AgentPlan) :
    List SearchResult × List String :=
  let angles := angleSearches plan.primary_goal
  (angles.flatMap (fun angle =>
    match search angle with
    | .error _ => []
    | .ok exercises => (exercises.take 2).map (mapAngleHit angle)), angles)

/-- `_execute_strategic_search`: dispatch on the selected strategy;
progressive refinement delegates to targeted search at index 0. -/
def executeStrategicSearch (search : SearchFn) (strategy : AgentStrategy)
    (plan : AgentPlan) (iteration : Nat) : List SearchResult × List String :=
  match strategy with
  | .broad_search => executeBroadSearch search plan
  | .targeted_search => executeTargetedSearch search plan iteration
  | .progressive_refinement => executeTargetedSearch search plan 0
  | .multi_angle_approach => executeMultiAngleSearch search plan

/-! ### Stop decision and memory (`_should_stop_searching`, `_update_agent_memory`) -/

/-- `_should_stop_searching`: quality criteria met, iteration cap reached
(`iteration >= max_iterations - 1`), or excellent overall score. The missing
`meets_criteria` key reads as `False` via `dict.get`. -/
def shouldStopSearching (quality_assessment : QualityAssessment) (_plan : AgentPlan)
    (max_iterations iteration : Nat) : Bool :=
  if quality_assessment.meets_criteria.getD false then true
  else if max_iterations ≤ iteration + 1 then true
  else if quality_assessment.overall_score ≥ 9/10 then true
  else false

/-- Python `history[-10:]` applied when the history grows beyond ten. -/
def takeLast10 (l : List MemoryEntry) : List MemoryEntry :=
  if 10 < l.length then l.drop (l.length - 10) else l

/-- Insertion-ordered dict update backing `_update_agent_memory`: missing
keys start from the empty history, the new entry is appended, and the
history is truncated to the last ten entries. -/
def memInsert (key : String) (entry : MemoryEntry) : Memory → Memory
  | [] => [(key, takeLast10 [entry])]
  | (k, history) :: rest =>
    if k = key then (k, takeLast10 (history ++ [entry])) :: rest
    else (k, history) :: memInsert key entry rest

/-- `_update_agent_memory`: records the iteration's quality score and result
count under the strategy used. -/
def updateAgentMemory (strategy : AgentStrategy) (results : List SearchResult)
    (quality : QualityAssessment) (mem : Memory) : Memory :=
  memInsert strategy.value ⟨quality.overall_score, results.length, "current"⟩ mem

/-! ### The agent loop (Phase 2 of `generate_recommendation`) -/

/-- The loop's mutable state: the accumulated results, the strategy chosen
at each executed iteration (instrumenting the `current_strategy` variable:
its final value is the last element), and the agent memory. -/
structure LoopState where
  search_results : List SearchResult
  strategies_used : List AgentStrategy
  memory : Memory
deriving DecidableEq

/-- One `for iteration in range(max_iterations)` body per list element:
select a strategy from the accumulated results, run it, score the new batch
against the old results, extend the results, then either break (stop check)
or update memory and continue with the next index. -/
def loopGo (search : SearchFn) (plan : AgentPlan) (max_iterations : Nat) :
    List Nat → LoopState → LoopState
  | [], st => st
  | iteration :: rest, st =>
    let current_strategy := selectOptimalStrategy plan st.search_results iteration
    let iteration_results := (executeStrategicSearch search current_strategy plan iteration).1
    let quality_assessment := assessResultQuality iteration_results plan st.search_results
    let st1 : LoopState :=
      { search_results := st.search_results ++ iteration_results
        strategies_used := st.strategies_used ++ [current_strategy]
        memory := st.memory }
    if shouldStopSearching quality_assessment plan max_iterations iteration then st1
    else
      loopGo search plan max_iterations rest
        { st1 with
          memory := updateAgentMemory current_strategy iteration_results quality_assessment st1.memory }

/-- The whole iterative phase, started from an arbitrary controller memory
(the instance attribute `successful_strategies` persists across requests
when the instance is reused). -/
def runAgentLoopFrom (search : SearchFn) (plan : AgentPlan) (max_iterations : Nat)
    (mem0 : Memory) : LoopState :=
  loopGo search plan max_iterations (List.range max_iterations) ⟨[], [], mem0⟩

/-- The iterative phase of a fresh controller (empty memory). -/
def runAgentLoop (search : SearchFn) (plan : AgentPlan) (max_iterations : Nat) : LoopState :=
  runAgentLoopFrom search plan max_iterations []

/-! ### Synthesis metrics and output metadata -/

/-- The dict returned by `_calculate_final_quality_metrics`. -/
structure FinalQualityMetrics where
  overall_quality : ℚ
  goal_coverage : ℚ
  confidence : ℚ
deriving DecidableEq

/-- `_calculate_final_quality_metrics` over the accumulated results. -/
def calculateFinalQualityMetrics (results : List SearchResult) (plan : AgentPlan) :
    FinalQualityMetrics :=
  if results = [] then ⟨0, 0, 0⟩
  else
    let overall_quality : ℚ :=
      (results.map SearchResult.relevance_score).sum / (results.length : ℚ)
    let goal_coverage : ℚ :=
      min (((results.map SearchResult.exercise_type).dedup.length : ℚ) /
        (plan.sub_goals.length : ℚ)) 1
    ⟨overall_quality, goal_coverage, overall_quality * (6/10) + goal_coverage * (4/10)⟩

/-- The dict returned by `_generate_reflection_insights`. -/
structure ReflectionInsights where
  planning_effectiveness : Bool
  goal_achievement : Bool
  search_efficiency : ℚ
  strategy_adaptation : Bool
  learnings_for_future : String
deriving DecidableEq

/-- `_generate_reflection_insights`: the reflection block appended when
reflection mode is on. -/
def generateReflectionInsights (plan : AgentPlan) (search_results : List SearchResult) :
    ReflectionInsights :=
  { planning_effectiveness := decide (search_results.length ≤ plan.expected_iterations)
    goal_achievement :=
      decide (((search_results.map SearchResult.exercise_type).dedup.length : ℚ) ≥
        (plan.sub_goals.length : ℚ) * (7/10))
    search_efficiency :=
      if search_results = [] then 0
      else (search_results.map SearchResult.relevance_score).sum / (search_results.length : ℚ)
    strategy_adaptation := decide (1 < (search_results.map SearchResult.source).dedup.length)
    learnings_for_future := "Strategic planning improved recommendation quality and coverage" }

/-- The agentic metadata the controller merges into the returned dict
(`generate_recommendation`, Phase 4 and the final `update`). -/
structure AgenticOutput where
  agent_plan : AgentPlan
  iterations_used : Nat
  strategies_employed : List String
  agentic_insights : Option ReflectionInsights
  search_results_used : Nat
deriving DecidableEq

/-- The controller's metadata assembly after the loop: `iterations_used` is
set to `len(search_results)` and `strategies_employed` to the singleton of
the final `current_strategy` (or empty when no iteration ran). -/
def generateRecommendationMeta (search : SearchFn) (primary_goal : String)
    (vi : VisualInsights) (max_iterations : Nat) (reflection_mode : Bool) : AgenticOutput :=
  let plan := createStrategicPlan primary_goal vi max_iterations
  let st := runAgentLoop search plan max_iterations
  { agent_plan := plan
    iterations_used := st.search_results.length
    strategies_employed :=
      match st.strategies_used.getLast? with
      | some s => [s.value]
      | none => []
    agentic_insights :=
      if reflection_mode then some (generateReflectionInsights plan st.search_results) else none
    search_results_used := st.search_results.length }

/-! ### Concrete collaborator stub used by witnesses -/

/-- A fixed deterministic hit: a cardio exercise scored 0.9. -/
def stubExercise : Exercise :=
  { content := some "cardio workout"
    score := some (9/10)
    category := some "cardio"
    muscle_groups := ["legs", "core"]
    difficulty := some "beginner" }

/-- A deterministic collaborator returning two fixed hits for every query. -/
def stubSearch : SearchFn := fun _ => .ok [stubExercise, stubExercise]

/-- A collaborator that raises on every query. -/
def failingSearch : SearchFn := fun _ => .error "boom"

/-! ### Specification-side comparators -/

/-- The query derivation as the specification words it: strip a leading
find_/identify_/locate_/discover_ marker, then turn underscores into
spaces. Compared against `subGoalToSearchTerm`, which embeds the source's
chained `str.replace` calls. -/
def specStripSubGoal (g : String) : String :=
  let stripped : String :=
    if ("find_".data).isPrefixOf g.data then ⟨g.data.drop 5⟩
    else if ("identify_".data).isPrefixOf g.data then ⟨g.data.drop 9⟩
    else if ("locate_".data).isPrefixOf g.data then ⟨g.data.drop 7⟩
    else if ("discover_".data).isPrefixOf g.data then ⟨g.data.drop 9⟩
    else g
  pyReplaceChar stripped '_' ' '

/-- Every sub-goal string the planner can ever place in a plan. -/
def allSubGoals : List String :=
  ["find_high_intensity_cardio", "identify_calorie_burning_exercises",
   "locate_nutrition_guidance", "discover_progression_strategies",
   "address_form_corrections", "utilize_available_equipment",
   "find_progressive_strength_exercises", "identify_muscle_building_protocols",
   "locate_nutrition_for_growth", "discover_recovery_strategies",
   "target_specific_muscle_groups", "address_postural_corrections",
   "find_endurance_training_methods", "identify_cardio_progressions",
   "locate_heart_rate_guidance", "discover_training_variations",
   "adjust_intensity_for_level", "optimize_available_equipment",
   "find_foundational_exercises", "identify_balanced_routines",
   "locate_beginner_progressions", "discover_safety_guidelines",
   "improve_exercise_form", "address_mobility_limitations",
   "adapt_for_equipment_constraints"]

/-- A collaborator transformer turning every raised error into an empty
result set: the specification's "treated as zero results for that query". -/
def maskErrors (search : SearchFn) : SearchFn := fun query =>
  match search query with
  | .error _ => .ok []
  | .ok hits => .ok hits

/-- Memory well-formedness: every recorded history has at most ten
entries. -/
def memGood (mem : Memory) : Prop :=
  ∀ key history, List.lookup key mem = some history → history.length ≤ 10

/-- The generic-tag count used by the specificity check. -/
def genericTagCount (results : List SearchResult) : Nat :=
  (results.filter (fun r =>
    (["general", "basic", "beginner", "simple"]).any
      (fun term => hasSubstring (pyLower r.exercise_type).data term.data))).length

/-! ## Helper lemmas -/

/-- The stop decision, characterized as the three-way disjunction. -/
lemma shouldStop_iff (q : QualityAssessment) (plan : AgentPlan)
    (max_iterations iteration : Nat) :
    shouldStopSearching q plan max_iterations iteration = true ↔
      (q.meets_criteria.getD false = true ∨ max_iterations - 1 ≤ iteration ∨
        (9/10 : ℚ) ≤ q.overall_score) := by
  unfold shouldStopSearching
  split
  · simp only [true_iff]
    left
    assumption
  · rename_i hmeets
    split
    · rename_i hcap
      simp only [true_iff]
      right
      left
      omega
    · rename_i hcap
      split
      · rename_i hhigh
        simp only [true_iff]
        right
        right
        exact hhigh
      · rename_i hhigh
        simp only [Bool.false_eq_true, false_iff]
        push_neg
        refine ⟨?_, by omega, not_le.mp hhigh⟩
        simpa using hmeets

/-! ## Theorems -/

/-- C1: after an iteration's selection, retrieval, scoring and result
append, the controller stops iterating if and only if the quality
assessment meets the criteria, the 0-based iteration index has reached
`max_iterations - 1`, or the overall score is at least 0.9; otherwise it
proceeds to the next pending index, and the loop has no other exit path
(it ends only by the stop decision or by exhausting the index range). -/
theorem C1_stop_condition (search : SearchFn) (plan : AgentPlan)
    (max_iterations iteration : Nat) (rest : List Nat) (st : LoopState)
    (q : QualityAssessment) :
    (shouldStopSearching q plan max_iterations iteration = true ↔
      (q.meets_criteria.getD false = true ∨ max_iterations - 1 ≤ iteration ∨
        (9/10 : ℚ) ≤ q.overall_score)) ∧
    (loopGo search plan max_iterations [] st = st) ∧
    (loopGo search plan max_iterations (iteration :: rest) st =
      (let current_strategy := selectOptimalStrategy plan st.search_results iteration
       let iteration_results := (executeStrategicSearch search current_strategy plan iteration).1
       let quality_assessment := assessResultQuality iteration_results plan st.search_results
       let st1 : LoopState :=
         ⟨st.search_results ++ iteration_results, st.strategies_used ++ [current_strategy],
           st.memory⟩
       if shouldStopSearching quality_assessment plan max_iterations iteration then st1
       else
         loopGo search plan max_iterations rest
           ⟨st1.search_results, st1.strategies_used,
             updateAgentMemory current_strategy iteration_results quality_assessment
               st1.memory⟩)) := by
  exact ⟨shouldStop_iff q plan max_iterations iteration, rfl, rfl⟩

/-- C6: an empty new-results batch yields the all-zero quality dict (which
omits `meets_criteria`, read back as false), and the stop decision on such
an assessment is taken exactly when the hard iteration cap is reached. -/
theorem C6_empty_batch (plan : AgentPlan) (all_results : List SearchResult)
    (max_iterations iteration : Nat) :
    assessResultQuality [] plan all_results = ⟨0, 0, 0, 0, none⟩ ∧
    (assessResultQuality [] plan all_results).meets_criteria.getD false = false ∧
    (shouldStopSearching (assessResultQuality [] plan all_results) plan
        max_iterations iteration = true ↔ max_iterations - 1 ≤ iteration) := by
  have hq : assessResultQuality [] plan all_results = ⟨0, 0, 0, 0, none⟩ := rfl
  refine ⟨hq, rfl, ?_⟩
  rw [shouldStop_iff, hq]
  constructor
  · rintro (h | h | h)
    · simp at h
    · exact h
    · norm_num at h
  · intro h
    exact Or.inr (Or.inl h)

/-- C2: for a non-empty batch the scorer returns the mean relevance of the
new results, coverage clamped by the number of distinct exercise-type tags
over the sub-goal count, diversity clamped by distinct muscle plus
difficulty tags over ten, the 0.4/0.3/0.3 weighted overall score, and
meets-criteria exactly when the overall score reaches the plan's relevance
threshold; coverage and diversity never exceed 1. -/
theorem C2_quality_scorer (new_results : List SearchResult) (plan : AgentPlan)
    (all_results : List SearchResult) (hnew : new_results ≠ [])
    (hsub : plan.sub_goals ≠ []) :
    (assessResultQuality new_results plan all_results).relevance =
      (new_results.map SearchResult.relevance_score).sum / (new_results.length : ℚ) ∧
    (assessResultQuality new_results plan all_results).coverage =
      min ((((all_results ++ new_results).map SearchResult.exercise_type).toFinset.card : ℚ) /
        (plan.sub_goals.length : ℚ)) 1 ∧
    (assessResultQuality new_results plan all_results).diversity =
      min (((((all_results ++ new_results).flatMap SearchResult.target_muscles).toFinset.card : ℚ) +
        (((all_results ++ new_results).map SearchResult.difficulty).toFinset.card : ℚ)) / 10) 1 ∧
    (assessResultQuality new_results plan all_results).overall_score =
      (4/10) * (assessResultQuality new_results plan all_results).relevance +
      (3/10) * (assessResultQuality new_results plan all_results).coverage +
      (3/10) * (assessResultQuality new_results plan all_results).diversity ∧
    ((assessResultQuality new_results plan all_results).meets_criteria = some true ↔
      plan.success_criteria.relevance_threshold ≤
        (assessResultQuality new_results plan all_results).overall_score) ∧
    (assessResultQuality new_results plan all_results).coverage ≤ 1 ∧
    (assessResultQuality new_results plan all_results).diversity ≤ 1 := by
  simp only [assessResultQuality, if_neg hnew, List.card_toFinset]
  refine ⟨trivial, trivial, trivial, by ring, ?_, min_le_right _ _, min_le_right _ _⟩
  simp only [Option.some.injEq, decide_eq_true_eq, ge_iff_le]

/-- C2 witness: the scenario of the specification, evaluated on a concrete
batch of three cardio results with relevance 0.8 against the weight-loss
plan (four sub-goals): relevance 0.8, coverage 0.25. -/
theorem C2_quality_scorer_witness :
    (let r : SearchResult := ⟨"c", 8/10, "azure_search", "cardio", ["legs"], "beginner"⟩
     let plan := createStrategicPlan "weight_loss" noVisualInsights 3
     [r, r, r] ≠ ([] : List SearchResult) ∧ plan.sub_goals ≠ [] ∧
     (assessResultQuality [r, r, r] plan []).relevance = 8/10 ∧
     (assessResultQuality [r, r, r] plan []).coverage = 1/4 ∧
     (assessResultQuality [r, r, r] plan []).coverage ≤ 1) := by
  refine ⟨by decide, by decide, ?_, ?_, ?_⟩
  · with_unfolding_all decide
  · with_unfolding_all decide
  · exact (C2_quality_scorer _ _ _ (by decide) (by decide)).2.2.2.2.2.1

/-- Clearing the denominator of the 70% test. -/
lemma seventyPercent_lt_iff (n c : Nat) : ((n : ℚ) * (7/10) < (c : ℚ)) ↔ 7 * n < 10 * c := by
  constructor
  · intro h
    have h10 : ((7 * n : ℕ) : ℚ) < ((10 * c : ℕ) : ℚ) := by
      push_cast
      nlinarith
    exact_mod_cast h10
  · intro h
    have h10 : ((7 * n : ℕ) : ℚ) < ((10 * c : ℕ) : ℚ) := by exact_mod_cast h
    push_cast at h10
    nlinarith

/-- The specificity test, restated over natural numbers: strictly more than
70% of the results carry a generic tag. -/
lemma resultsLackSpecificity_iff (results : List SearchResult) :
    resultsLackSpecificity results = true ↔
      7 * results.length < 10 * genericTagCount results := by
  unfold resultsLackSpecificity genericTagCount
  rw [decide_eq_true_eq, gt_iff_lt]
  exact seventyPercent_lt_iff _ _

/-- C3: the strategy selector is the priority cascade of the specification:
iteration 0 is always broad; fewer than three accumulated results forces the
multi-angle approach; then the generic-tag majority test, then the
moderate-average-relevance test, and finally the plan's strategy list
indexed cyclically by the iteration. -/
theorem C3_strategy_cascade (plan : AgentPlan) (current_results : List SearchResult)
    (iteration : Nat) (h : plan.search_strategies ≠ []) :
    selectOptimalStrategy plan current_results iteration =
      (if iteration = 0 then .broad_search
       else if current_results.length < 3 then .multi_angle_approach
       else if 7 * current_results.length < 10 * genericTagCount current_results then
         .targeted_search
       else if (4/10 : ℚ) <
            (current_results.map SearchResult.relevance_score).sum / (current_results.length : ℚ) ∧
          (current_results.map SearchResult.relevance_score).sum / (current_results.length : ℚ) <
            (7/10 : ℚ) then
         .progressive_refinement
       else
         plan.search_strategies.get
           ⟨iteration % plan.search_strategies.length,
             Nat.mod_lt iteration (List.length_pos.mpr h)⟩) := by
  unfold selectOptimalStrategy
  by_cases h0 : iteration = 0
  · simp [h0]
  · rw [if_neg h0, if_neg h0]
    by_cases h3 : current_results.length < 3
    · simp [h3]
    · rw [if_neg h3, if_neg h3]
      have hne : current_results ≠ [] := by
        intro hcontra
        rw [hcontra] at h3
        simp at h3
      by_cases hspec : resultsLackSpecificity current_results
      · rw [if_pos hspec, if_pos ((resultsLackSpecificity_iff current_results).mp hspec)]
      · rw [if_neg hspec,
          if_neg (fun hc => hspec ((resultsLackSpecificity_iff current_results).mpr hc))]
        have havg : resultsNeedRefinement current_results = true ↔
            ((4/10 : ℚ) <
              (current_results.map SearchResult.relevance_score).sum / (current_results.length : ℚ) ∧
            (current_results.map SearchResult.relevance_score).sum / (current_results.length : ℚ) <
              (7/10 : ℚ)) := by
          unfold resultsNeedRefinement
          rw [if_neg hne, decide_eq_true_eq]
        by_cases href : resultsNeedRefinement current_results
        · rw [if_pos href, if_pos (havg.mp href)]
        · rw [if_neg href, if_neg (fun hc => href (havg.mpr hc))]
          rw [List.getD_eq_get?, List.get?_eq_get (Nat.mod_lt iteration (List.length_pos.mpr h))]
          rfl

/-- C3 witness: at iteration 1 with no accumulated results the cascade's
second rule fires and the multi-angle approach is selected. -/
theorem C3_strategy_cascade_witness :
    (createStrategicPlan "weight_loss" noVisualInsights 3).search_strategies ≠ [] ∧
    selectOptimalStrategy (createStrategicPlan "weight_loss" noVisualInsights 3) [] 1 =
      .multi_angle_approach := by
  refine ⟨by decide, ?_⟩
  rw [C3_strategy_cascade _ _ _ (by decide)]
  with_unfolding_all decide

/-- The truncated history never exceeds ten entries. -/
lemma takeLast10_length_le (l : List MemoryEntry) : (takeLast10 l).length ≤ 10 := by
  unfold takeLast10
  split
  · rename_i h
    rw [List.length_drop]
    omega
  · rename_i h
    omega

/-- Looking up the inserted key finds the appended, truncated history. -/
lemma lookup_memInsert_self (key : String) (entry : MemoryEntry) (mem : Memory) :
    List.lookup key (memInsert key entry mem) =
      some (takeLast10 ((List.lookup key mem).getD [] ++ [entry])) := by
  induction mem with
  | nil =>
    simp [memInsert, List.lookup]
  | cons p rest ih =>
    obtain ⟨k, history⟩ := p
    by_cases hk : k = key
    · subst hk
      simp [memInsert, List.lookup]
    · have hbeq : (key == k) = false := beq_eq_false_iff_ne.mpr (fun h => hk h.symm)
      rw [memInsert, if_neg hk]
      simp only [List.lookup, hbeq]
      exact ih

/-- Looking up any other key is unaffected by the insertion. -/
lemma lookup_memInsert_other (key k : String) (entry : MemoryEntry) (mem : Memory)
    (hk : k ≠ key) :
    List.lookup k (memInsert key entry mem) = List.lookup k mem := by
  have hbeqk : (k == key) = false := beq_eq_false_iff_ne.mpr hk
  induction mem with
  | nil =>
    simp [memInsert, List.lookup, hbeqk]
  | cons p rest ih =>
    obtain ⟨k', history⟩ := p
    by_cases hk' : k' = key
    · subst hk'
      rw [memInsert, if_pos rfl]
      simp only [List.lookup, hbeqk]
    · rw [memInsert, if_neg hk']
      by_cases hkk : k = k'
      · subst hkk
        simp [List.lookup]
      · have hbeq : (k == k') = false := beq_eq_false_iff_ne.mpr hkk
        simp only [List.lookup, hbeq]
        exact ih

/-- Inserting an entry preserves the ten-entry bound on all histories. -/
lemma memGood_memInsert (key : String) (entry : MemoryEntry) (mem : Memory)
    (hmem : memGood mem) : memGood (memInsert key entry mem) := by
  intro k history hlook
  by_cases hk : k = key
  · subst hk
    rw [lookup_memInsert_self] at hlook
    cases hlook
    exact takeLast10_length_le _
  · rw [lookup_memInsert_other key k entry mem hk] at hlook
    exact hmem k history hlook

/-- The loop body preserves the ten-entry bound on all histories. -/
lemma loopGo_memGood (search : SearchFn) (plan : AgentPlan) (max_iterations : Nat) :
    ∀ (fuel : List Nat) (st : LoopState), memGood st.memory →
      memGood (loopGo search plan max_iterations fuel st).memory := by
  intro fuel
  induction fuel with
  | nil =>
    intro st hst
    exact hst
  | cons iteration rest ih =>
    intro st hst
    rw [loopGo]
    split
    · exact hst
    · exact ih _ (memGood_memInsert _ _ _ hst)

/-- C4 counterexample: with the stub collaborator and `max_iterations = 1`,
the single executed iteration used the broad strategy, yet the final memory
records nothing at all for it — the stopping iteration performs no memory
update, so the memory is not updated after every iteration. -/
theorem C4_memory_counterexample :
    (runAgentLoop stubSearch (createStrategicPlan "weight_loss" noVisualInsights 1)
      1).strategies_used = [.broad_search] ∧
    List.lookup "broad_search"
      (runAgentLoop stubSearch (createStrategicPlan "weight_loss" noVisualInsights 1)
        1).memory = none ∧
    (runAgentLoop stubSearch (createStrategicPlan "weight_loss" noVisualInsights 1)
      1).memory = [] := by
  with_unfolding_all decide

/-- C4 amended: after every iteration at which the controller decides to
continue (and only those), the memory is updated by appending an entry
recording the iteration's quality score and result count under the strategy
used, truncated to the most recent ten entries; the stopping iteration
performs no update. Consequently every strategy's history length never
exceeds ten. -/
theorem C4_memory_amended (strategy : AgentStrategy) (results : List SearchResult)
    (quality : QualityAssessment) (mem : Memory) (search : SearchFn) (plan : AgentPlan)
    (max_iterations iteration : Nat) (rest : List Nat) (st : LoopState) :
    (List.lookup strategy.value (updateAgentMemory strategy results quality mem) =
      some (takeLast10 ((List.lookup strategy.value mem).getD [] ++
        [⟨quality.overall_score, results.length, "current"⟩]))) ∧
    (let current_strategy := selectOptimalStrategy plan st.search_results iteration
     let iteration_results := (executeStrategicSearch search current_strategy plan iteration).1
     let quality_assessment := assessResultQuality iteration_results plan st.search_results
     loopGo search plan max_iterations (iteration :: rest) st =
       if shouldStopSearching quality_assessment plan max_iterations iteration then
         ⟨st.search_results ++ iteration_results, st.strategies_used ++ [current_strategy],
           st.memory⟩
       else
         loopGo search plan max_iterations rest
           ⟨st.search_results ++ iteration_results, st.strategies_used ++ [current_strategy],
             updateAgentMemory current_strategy iteration_results quality_assessment
               st.memory⟩) ∧
    (∀ key history,
      List.lookup key (runAgentLoop search plan max_iterations).memory = some history →
      history.length ≤ 10) := by
  refine ⟨lookup_memInsert_self _ _ _, rfl, ?_⟩
  have hgood : memGood (runAgentLoop search plan max_iterations).memory := by
    apply loopGo_memGood
    intro k history hlook
    simp [List.lookup] at hlook
  exact hgood

/-- C4 amended witness: after the stub run with three iterations, each
recorded strategy history has exactly one entry (within the ten bound), and
the run's second iteration (which continued) recorded the broad strategy's
quality 0.525 and result count 8. -/
theorem C4_memory_amended_witness :
    List.lookup "broad_search"
      (runAgentLoop stubSearch (createStrategicPlan "weight_loss" noVisualInsights 3)
        3).memory = some [⟨21/40, 8, "current"⟩] ∧
    ([(⟨21/40, 8, "current"⟩ : MemoryEntry)].length ≤ 10) := by
  constructor
  · with_unfolding_all decide
  · have h := (C4_memory_amended .broad_search [] ⟨0, 0, 0, 0, none⟩ [] stubSearch
      (createStrategicPlan "weight_loss" noVisualInsights 3) 3 0 []
      ⟨[], [], []⟩).2.2 "broad_search" [⟨21/40, 8, "current"⟩]
    apply h
    with_unfolding_all decide

/-- C5: evaluating the controller's returned metadata at a concrete stub
input. The loop executes three iterations using broad, targeted, broad, but
the returned object reports `iterations_used = 18` — the total result
count, not the iteration count — and `strategies_employed` holds only the
final strategy instead of all strategies employed. The plan and the
reflection block are present as claimed. -/
theorem C5_output_contract (search : SearchFn) :
    (runAgentLoop stubSearch (createStrategicPlan "weight_loss" noVisualInsights 3)
      3).strategies_used.length = 3 ∧
    (runAgentLoop stubSearch (createStrategicPlan "weight_loss" noVisualInsights 3)
      3).strategies_used.map AgentStrategy.value =
      ["broad_search", "targeted_search", "broad_search"] ∧
    (generateRecommendationMeta stubSearch "weight_loss" noVisualInsights 3
      true).iterations_used = 18 ∧
    (generateRecommendationMeta stubSearch "weight_loss" noVisualInsights 3
      true).strategies_employed = ["broad_search"] ∧
    (generateRecommendationMeta stubSearch "weight_loss" noVisualInsights 3
      true).agent_plan = createStrategicPlan "weight_loss" noVisualInsights 3 ∧
    (generateRecommendationMeta stubSearch "weight_loss" noVisualInsights 3
      true).agentic_insights =
      some (generateReflectionInsights (createStrategicPlan "weight_loss" noVisualInsights 3)
        (runAgentLoop stubSearch (createStrategicPlan "weight_loss" noVisualInsights 3)
          3).search_results) ∧
    (generateRecommendationMeta search "weight_loss" noVisualInsights 3
      false).agentic_insights = none := by
  refine ⟨?_, ?_, ?_, ?_, ?_, ?_, rfl⟩ <;> with_unfolding_all decide

/-- One loop step never shrinks the strategy trace. -/
lemma loopGo_strategies_mono (search : SearchFn) (plan : AgentPlan) (max_iterations : Nat) :
    ∀ (fuel : List Nat) (st : LoopState),
      st.strategies_used.length ≤
        (loopGo search plan max_iterations fuel st).strategies_used.length := by
  intro fuel
  induction fuel with
  | nil =>
    intro st
    exact le_rfl
  | cons iteration rest ih =>
    intro st
    rw [loopGo]
    split
    · simp
    · refine le_trans ?_ (ih _)
      simp

/-- The loop executes at most one iteration per pending index. -/
lemma loopGo_strategies_le (search : SearchFn) (plan : AgentPlan) (max_iterations : Nat) :
    ∀ (fuel : List Nat) (st : LoopState),
      (loopGo search plan max_iterations fuel st).strategies_used.length ≤
        st.strategies_used.length + fuel.length := by
  intro fuel
  induction fuel with
  | nil =>
    intro st
    rw [loopGo]
    simp
  | cons iteration rest ih =>
    intro st
    rw [loopGo]
    split
    · simp
    · refine le_trans (ih _) ?_
      simp
      omega

/-- With at least one pending index, at least one iteration executes. -/
lemma loopGo_strategies_ge_one (search : SearchFn) (plan : AgentPlan) (max_iterations : Nat)
    (iteration : Nat) (rest : List Nat) (st : LoopState) :
    st.strategies_used.length + 1 ≤
      (loopGo search plan max_iterations (iteration :: rest) st).strategies_used.length := by
  rw [loopGo]
  split
  · simp
  · refine le_trans ?_ (loopGo_strategies_mono search plan max_iterations _ _)
    simp

/-- C7 counterexample: a controller configured with `max_iterations = 0`
executes zero loop iterations, so the executed-iteration count is not at
least 1. -/
theorem C7_min_iterations_counterexample :
    (runAgentLoop stubSearch (createStrategicPlan "weight_loss" noVisualInsights 0)
      0).strategies_used.length = 0 ∧
    ¬ (1 ≤ (runAgentLoop stubSearch (createStrategicPlan "weight_loss" noVisualInsights 0)
      0).strategies_used.length) := by
  with_unfolding_all decide

/-- C7 amended: for every request the number of executed loop iterations is
at most the configured `max_iterations`, and at least 1 whenever
`max_iterations` is at least 1 (the Python `range` loop runs no iteration
at all when the configured cap is 0). -/
theorem C7_iteration_bounds (search : SearchFn) (plan : AgentPlan)
    (max_iterations : Nat) (mem0 : Memory) :
    (runAgentLoopFrom search plan max_iterations mem0).strategies_used.length ≤
      max_iterations ∧
    (1 ≤ max_iterations →
      1 ≤ (runAgentLoopFrom search plan max_iterations mem0).strategies_used.length) := by
  constructor
  · have h := loopGo_strategies_le search plan max_iterations
      (List.range max_iterations) ⟨[], [], mem0⟩
    simpa using h
  · intro hpos
    obtain ⟨n, hn⟩ : ∃ n, max_iterations = n + 1 := ⟨max_iterations - 1, by omega⟩
    rw [runAgentLoopFrom, hn, List.range_succ_eq_map]
    have h := loopGo_strategies_ge_one search plan (n + 1) 0
      ((List.range n).map (· + 1)) ⟨[], [], mem0⟩
    simpa using h

/-- C7 amended witness: with the stub collaborator and the default cap of
three, the executed iteration count lies between 1 and 3. -/
theorem C7_iteration_bounds_witness :
    (1 ≤ (3 : Nat)) ∧
    (runAgentLoopFrom stubSearch (createStrategicPlan "weight_loss" noVisualInsights 3) 3
      []).strategies_used.length ≤ 3 ∧
    1 ≤ (runAgentLoopFrom stubSearch (createStrategicPlan "weight_loss" noVisualInsights 3) 3
      []).strategies_used.length := by
  refine ⟨by decide, ?_, ?_⟩
  · exact (C7_iteration_bounds stubSearch
      (createStrategicPlan "weight_loss" noVisualInsights 3) 3 []).1
  · exact (C7_iteration_bounds stubSearch
      (createStrategicPlan "weight_loss" noVisualInsights 3) 3 []).2 (by decide)

/-- Every sub-goal the planner can produce is in the fixed enumeration. -/
lemma planSubGoals_subset (goal : String) (vi : VisualInsights) :
    ∀ g ∈ planSubGoals goal vi, g ∈ allSubGoals := by
  intro g hg
  unfold planSubGoals at hg
  split_ifs at hg <;>
    exact (show _ ⊆ allSubGoals from by decide) hg

/-- C8: with an iteration index at or beyond the sub-goal list the targeted
search returns no results and issues no query to the collaborator; in range
it issues exactly one query, derived from the sub-goal at that index by
stripping the find_/identify_/locate_/discover_ markers and replacing
underscores with spaces (for every sub-goal the planner can produce, the
source's replace-everywhere is exactly the specification's strip). -/
theorem C8_targeted_frame (search : SearchFn) (plan : AgentPlan) (iteration : Nat) :
    (plan.sub_goals.length ≤ iteration →
      executeTargetedSearch search plan iteration = ([], [])) ∧
    (∀ h : iteration < plan.sub_goals.length,
      (executeTargetedSearch search plan iteration).2 =
        [subGoalToSearchTerm (plan.sub_goals.get ⟨iteration, h⟩)]) ∧
    (∀ goal vi max_iterations g,
      g ∈ (createStrategicPlan goal vi max_iterations).sub_goals →
      subGoalToSearchTerm g = specStripSubGoal g) := by
  refine ⟨?_, ?_, ?_⟩
  · intro h
    unfold executeTargetedSearch
    rw [dif_neg (by omega)]
  · intro h
    unfold executeTargetedSearch
    rw [dif_pos h]
    dsimp only
    split <;> rfl
  · intro goal vi m g hg
    have hmem : g ∈ allSubGoals := planSubGoals_subset goal vi g hg
    fin_cases hmem <;> with_unfolding_all decide

/-- C8 witness: for the weight-loss plan, index 5 is out of range and makes
no collaborator call even for a raising collaborator, while index 1 issues
exactly the query derived from the second sub-goal. -/
theorem C8_targeted_frame_witness :
    (createStrategicPlan "weight_loss" noVisualInsights 3).sub_goals.length ≤ 5 ∧
    executeTargetedSearch failingSearch
      (createStrategicPlan "weight_loss" noVisualInsights 3) 5 = ([], []) ∧
    (executeTargetedSearch stubSearch
      (createStrategicPlan "weight_loss" noVisualInsights 3) 1).2 =
      ["calorie burning exercises"] ∧
    subGoalToSearchTerm "find_high_intensity_cardio" =
      specStripSubGoal "find_high_intensity_cardio" := by
  refine ⟨by decide, ?_, ?_, ?_⟩
  · exact (C8_targeted_frame failingSearch
      (createStrategicPlan "weight_loss" noVisualInsights 3) 5).1 (by decide)
  · have h := (C8_targeted_frame stubSearch
      (createStrategicPlan "weight_loss" noVisualInsights 3) 1).2.1 (by decide)
    rw [h]
    with_unfolding_all decide
  · exact (C8_targeted_frame stubSearch
      (createStrategicPlan "weight_loss" noVisualInsights 3) 1).2.2 "weight_loss"
      noVisualInsights 3 "find_high_intensity_cardio" (by decide)

/-- A failing query contributes nothing, exactly as if the collaborator had
returned zero hits for it, and the remaining queries are unaffected. -/
lemma flatMap_maskErrors (f : SearchFn) (terms : List String)
    (k : String → List Exercise → List SearchResult) (hk : ∀ t, k t [] = []) :
    (terms.flatMap (fun t => match f t with
      | .error _ => []
      | .ok hits => k t hits)) =
    (terms.flatMap (fun t => match maskErrors f t with
      | .error _ => []
      | .ok hits => k t hits)) := by
  induction terms with
  | nil => rfl
  | cons t rest ih =>
    rw [List.flatMap_cons, List.flatMap_cons, ih]
    congr 1
    unfold maskErrors
    cases f t with
    | error e => exact (hk t).symm
    | ok hits => rfl

/-- Targeted search behaves identically under the error-masked
collaborator. -/
lemma executeTargetedSearch_maskErrors (f : SearchFn) (plan : AgentPlan)
    (iteration : Nat) :
    executeTargetedSearch f plan iteration =
      executeTargetedSearch (maskErrors f) plan iteration := by
  unfold executeTargetedSearch
  split
  · dsimp only
    unfold maskErrors
    split <;> rfl
  · rfl

/-- The single query of targeted search does not depend on the
collaborator. -/
lemma executeTargetedSearch_queries (f g : SearchFn) (plan : AgentPlan)
    (iteration : Nat) :
    (executeTargetedSearch f plan iteration).2 =
      (executeTargetedSearch g plan iteration).2 := by
  unfold executeTargetedSearch
  split
  · dsimp only
    split <;> split <;> rfl
  · rfl

/-- C9: for every strategy, a collaborator error on one query is contained
at that query: the executed strategy behaves exactly as with a collaborator
returning zero hits there (so the other queries of the strategy still run
and the succeeding subset is returned), no error propagates (the executor
is total), and the set of issued queries does not depend on the
collaborator's outcomes at all. -/
theorem C9_per_query_errors (f g : SearchFn) (strategy : AgentStrategy)
    (plan : AgentPlan) (iteration : Nat) :
    executeStrategicSearch f strategy plan iteration =
      executeStrategicSearch (maskErrors f) strategy plan iteration ∧
    (executeStrategicSearch f strategy plan iteration).2 =
      (executeStrategicSearch g strategy plan iteration).2 := by
  constructor
  · cases strategy with
    | broad_search =>
      show executeBroadSearch f plan = executeBroadSearch (maskErrors f) plan
      unfold executeBroadSearch
      dsimp only
      exact congrArg₂ Prod.mk (flatMap_maskErrors f _ _ (fun t => rfl)) rfl
    | targeted_search => exact executeTargetedSearch_maskErrors f plan iteration
    | progressive_refinement => exact executeTargetedSearch_maskErrors f plan 0
    | multi_angle_approach =>
      show executeMultiAngleSearch f plan = executeMultiAngleSearch (maskErrors f) plan
      unfold executeMultiAngleSearch
      dsimp only
      exact congrArg₂ Prod.mk (flatMap_maskErrors f _ _ (fun t => rfl)) rfl
  · cases strategy with
    | broad_search => rfl
    | targeted_search => exact executeTargetedSearch_queries f g plan iteration
    | progressive_refinement => exact executeTargetedSearch_queries f g plan 0
    | multi_angle_approach => rfl

/-- The loop's results and strategy trace do not depend on the memory
component of its state. -/
lemma loopGo_memory_independent (search : SearchFn) (plan : AgentPlan)
    (max_iterations : Nat) :
    ∀ (fuel : List Nat) (res : List SearchResult) (strats : List AgentStrategy)
      (m1 m2 : Memory),
      (loopGo search plan max_iterations fuel ⟨res, strats, m1⟩).search_results =
        (loopGo search plan max_iterations fuel ⟨res, strats, m2⟩).search_results ∧
      (loopGo search plan max_iterations fuel ⟨res, strats, m1⟩).strategies_used =
        (loopGo search plan max_iterations fuel ⟨res, strats, m2⟩).strategies_used := by
  intro fuel
  induction fuel with
  | nil =>
    intro res strats m1 m2
    exact ⟨rfl, rfl⟩
  | cons iteration rest ih =>
    intro res strats m1 m2
    simp only [loopGo]
    split
    · exact ⟨rfl, rfl⟩
    · exact ih _ _ _ _

/-- C10: with a fixed deterministic collaborator and identical inputs, two
runs of the full loop — even from controllers whose memories differ —
produce the identical plan-driven strategy sequence, identical accumulated
results, and identical final quality metrics; in particular re-running with
identical inputs reproduces the same outputs. -/
theorem C10_deterministic (search : SearchFn) (primary_goal : String)
    (vi : VisualInsights) (max_iterations : Nat) (m1 m2 : Memory) :
    (runAgentLoopFrom search (createStrategicPlan primary_goal vi max_iterations)
      max_iterations m1).strategies_used =
      (runAgentLoopFrom search (createStrategicPlan primary_goal vi max_iterations)
        max_iterations m2).strategies_used ∧
    (runAgentLoopFrom search (createStrategicPlan primary_goal vi max_iterations)
      max_iterations m1).search_results =
      (runAgentLoopFrom search (createStrategicPlan primary_goal vi max_iterations)
        max_iterations m2).search_results ∧
    calculateFinalQualityMetrics
      (runAgentLoopFrom search (createStrategicPlan primary_goal vi max_iterations)
        max_iterations m1).search_results
      (createStrategicPlan primary_goal vi max_iterations) =
      calculateFinalQualityMetrics
        (runAgentLoopFrom search (createStrategicPlan primary_goal vi max_iterations)
          max_iterations m2).search_results
        (createStrategicPlan primary_goal vi max_iterations) := by
  have h := loopGo_memory_independent search
    (createStrategicPlan primary_goal vi max_iterations) max_iterations
    (List.range max_iterations) [] [] m1 m2
  refine ⟨h.2, h.1, ?_⟩
  unfold runAgentLoopFrom
  rw [h.1]

end AgenticRag
